import Mathlib

/-!
Verification of the emby-auto-tags backend against its specification.

The definitions below are a shallow embedding of the Python sources:
- `ruleOverallMatch`, `generate_tags` embed
  src/backend/services/rule_service.py (generate_tags, lines 81-168);
- `originalTagsOf`, `finalTagsFor`, `update_item_metadata` embed
  src/backend/services/emby_service.py (update_item_metadata);
- further definitions embed src/backend/api/routers/webhook.py,
  src/backend/api/routers/rules.py, src/backend/api/routers/tasks.py and
  src/backend/services/tmdb_service.py.
File reads, HTTP calls and logging are lifted to explicit parameters
(oracles) or recorded effect traces; everything else follows the source
line by line.  All definitions come first, all theorems afterwards.
-/

namespace EmbyAutoTags

/-- The `conditions` sub-dictionary of a rule
(src/backend/services/rule_service.py), with the defaults of
`conditions.get("countries", [])` etc. already resolved. -/
structure RuleCond where
  countries : List String
  genre_ids : List Int
  years : List Int
deriving DecidableEq, Repr

/-- A rule as consumed by `generate_tags`, with the dictionary defaults
(`item_type` -> "all", `match_all_conditions` -> False,
`is_negative_match` -> False) already resolved. -/
structure Rule where
  name : String
  tag : String
  conditions : RuleCond
  item_type : String
  match_all_conditions : Bool
  is_negative_match : Bool
deriving DecidableEq, Repr

/-- The per-rule body of the loop in `generate_tags`
(src/backend/services/rule_service.py lines 93-167): decides whether
`rule` adds its tag for the given media metadata.  The `continue` for a
rule with no conditions and item_type "all" is modelled as returning
`false` (the rule adds nothing). -/
def ruleOverallMatch (countries : List String) (genre_ids : List Int)
    (media_year : Option Int) (item_type : String) (rule : Rule) : Bool :=
  let rule_countries := rule.conditions.countries
  let rule_genre_ids := rule.conditions.genre_ids
  let rule_years := rule.conditions.years
  if rule_countries.isEmpty && rule_genre_ids.isEmpty && rule_years.isEmpty
      && rule.item_type == "all" then
    false
  else
    let country_match : Bool :=
      if rule_countries.isEmpty then true
      else if rule.match_all_conditions then
        decide (countries.toFinset = rule_countries.toFinset)
      else countries.any (fun c => rule_countries.contains c)
    let genre_match : Bool :=
      if rule_genre_ids.isEmpty then true
      else if rule.match_all_conditions then
        decide (genre_ids.toFinset = rule_genre_ids.toFinset)
      else genre_ids.any (fun gid => rule_genre_ids.contains gid)
    let type_match : Bool :=
      if rule.item_type == "series" then
        item_type == "series" || item_type == "tv"
      else
        rule.item_type == "all" || rule.item_type == item_type
    let year_match : Bool :=
      if rule_years.isEmpty then true
      else match media_year with
        | some y => rule_years.contains y
        | none => false
    let individual_positive_matches : List Bool :=
      (if rule_countries.isEmpty then [] else [country_match]) ++
      (if rule_genre_ids.isEmpty then [] else [genre_match]) ++
      (if rule_years.isEmpty then [] else [year_match])
    let pre_overall_match : Bool :=
      if individual_positive_matches.isEmpty then false
      else individual_positive_matches.all id
    let overall_match_excluding_type : Bool :=
      if rule.is_negative_match then !pre_overall_match else pre_overall_match
    if rule.item_type != "all" then overall_match_excluding_type && type_match
    else overall_match_excluding_type

/-- `generate_tags` (src/backend/services/rule_service.py lines 81-168),
with the rule list read from rules.json lifted to a parameter.  The
Python accumulates matching tags into a set and returns `list(...)` of
it; the set semantics is modelled by `dedup` (the claims about the
result only compare it as a set). -/
def generate_tags (rules : List Rule) (countries : List String)
    (genre_ids : List Int) (media_year : Option Int) (item_type : String) :
    List String :=
  if rules.isEmpty then []
  else
    ((rules.filter
        (ruleOverallMatch countries genre_ids media_year item_type)).map
      (fun r => r.tag)).dedup

/-- Python `sorted(list(set(l)))` as used by `update_item_metadata`
(src/backend/services/emby_service.py lines 130 and 132): deduplicate,
then sort ascending. -/
def sortDedup (l : List String) : List String :=
  List.insertionSort (· ≤ ·) l.dedup

/-- One entry of an Emby item's `TagItems` list; `name` models
`t.get('Name')` (absent key -> `none`). -/
structure TagItem where
  name : Option String
deriving DecidableEq, Repr

/-- The slice of an Emby item's remote representation read and written
by `update_item_metadata` (src/backend/services/emby_service.py):
the optional `Tags` list, the optional `TagItems` list and the
`LockedFields` list (already defaulted to `[]` when absent). -/
structure EmbyItemData where
  tags : Option (List String)
  tagItems : Option (List TagItem)
  lockedFields : List String
deriving DecidableEq, Repr

/-- The `TagItems` fallback of line 127:
`[t.get('Name') for t in item_data["TagItems"] if t.get('Name')]`
(a name that is absent or empty is dropped by Python truthiness). -/
def tagsFromTagItems (d : EmbyItemData) : List String :=
  match d.tagItems with
  | some items =>
      items.filterMap fun t =>
        match t.name with
        | some n => if n.isEmpty then none else some n
        | none => none
  | none => []

/-- Lines 123-127 of src/backend/services/emby_service.py: take `Tags`
when it is present and non-empty, else fall back to `TagItems` when
that key is present, else the empty list. -/
def originalTagsOf (d : EmbyItemData) : List String :=
  match d.tags with
  | some ts => if ts.isEmpty then tagsFromTagItems d else ts
  | none => tagsFromTagItems d

/-- Lines 129-132: the final tag list for the given write mode.  The
Python compares `mode == 'merge'` and treats everything else as
overwrite. -/
def finalTagsFor (mode : String) (original_tags tags_to_set : List String) :
    List String :=
  if mode == "merge" then sortDedup (original_tags ++ tags_to_set)
  else sortDedup tags_to_set

/-- Observable outcome of `update_item_metadata`: the returned boolean,
the number of POST update calls issued, and the written representation
when a write happened. -/
structure UpdateOutcome where
  success : Bool
  writeCalls : Nat
  payload : Option EmbyItemData
deriving DecidableEq, Repr

/-- `update_item_metadata` (src/backend/services/emby_service.py lines
87-162).  The HTTP GET of the item is lifted to the `fetched` parameter
(`none` models the early-return-false branches: missing configuration,
missing user id, or a failed fetch); the HTTP POST is lifted to the
`writeOk` oracle and recorded in the outcome.  Lines 134-137: when the
final list equals `sorted(original_tags)` the function returns `True`
without any write. -/
def update_item_metadata (fetched : Option EmbyItemData) (writeOk : Bool)
    (tags_to_set : List String) (mode : String) : UpdateOutcome :=
  match fetched with
  | none => ⟨false, 0, none⟩
  | some item_data =>
    let original_tags := originalTagsOf item_data
    let final_tags := finalTagsFor mode original_tags tags_to_set
    if final_tags = List.insertionSort (· ≤ ·) original_tags then
      ⟨true, 0, none⟩
    else
      let locked_fields := item_data.lockedFields
      let new_locked :=
        if locked_fields.contains "Tags" then
          (locked_fields.dedup).erase "Tags"
        else locked_fields
      let payload : EmbyItemData :=
        { tags := some final_tags,
          tagItems := some (final_tags.map fun t => ⟨some t⟩),
          lockedFields := new_locked }
      ⟨writeOk, 1, some payload⟩

/-- A rule with empty conditions, a non-"all" target item_type and the
negate flag set: the witness that such a rule is not inert. -/
def negEmptyRule : Rule :=
  { name := "neg", tag := "NEG", conditions := ⟨[], [], []⟩,
    item_type := "movie", match_all_conditions := false,
    is_negative_match := true }

/-- An inert rule used as the concrete input of the C2 witness. -/
def inertRule : Rule :=
  { name := "inert", tag := "X", conditions := ⟨[], [], []⟩,
    item_type := "movie", match_all_conditions := true,
    is_negative_match := false }

/-- Two concrete rules used by the C9 witness. -/
def usActionRule : Rule :=
  { name := "us-action", tag := "US-Action",
    conditions := ⟨["US"], [28], []⟩, item_type := "movie",
    match_all_conditions := false, is_negative_match := false }

/-- A second concrete rule used by the C9 witness. -/
def cnDramaRule : Rule :=
  { name := "cn-drama", tag := "CN-Drama",
    conditions := ⟨["CN"], [18], []⟩, item_type := "all",
    match_all_conditions := false, is_negative_match := false }

/-- Concrete item data used by the C3 witness: its tags are already the
(sorted, duplicate-free) result of the requested merge. -/
def noopItem : EmbyItemData :=
  { tags := some ["A", "B"], tagItems := none, lockedFields := ["Tags"] }

/-- One entry of a TMDB `production_countries` array; the webhook path
reads its `iso_3166_1` code (src/backend/api/routers/webhook.py
line 73). -/
structure ProductionCountry where
  iso_3166_1 : String
deriving DecidableEq, Repr

/-- One entry of a TMDB `genres` array; both paths read its `id`. -/
structure Genre where
  id : Int
deriving DecidableEq, Repr

/-- The `origin_country` field of a TMDB details document: it may be a
JSON string or a JSON array of strings; the bulk path handles both
shapes (src/backend/services/emby_service.py lines 445-450). -/
inductive OriginVal where
  | str (s : String)
  | arr (l : List String)
deriving DecidableEq, Repr

/-- The slice of a TMDB details document read by the two pipelines;
every field is a `details.get(...)` (absent -> `none` / `[]`). -/
structure TmdbDetails where
  genres : List Genre
  production_countries : List ProductionCountry
  origin_country : Option OriginVal
  original_language : Option String
  release_date : Option String
  first_air_date : Option String
deriving DecidableEq, Repr

/-- The fixed language-to-country lookup table of
src/backend/services/emby_service.py lines 455-459. -/
def lang_to_country_map : List (String × String) :=
  [("en", "US"), ("zh", "CN"), ("ja", "JP"), ("ko", "KR"), ("fr", "FR"),
   ("de", "DE"), ("es", "ES"), ("it", "IT"), ("hi", "IN"), ("ar", "SA"),
   ("pt", "BR"), ("ru", "RU"), ("th", "TH"), ("sv", "SE"), ("da", "DK"),
   ("no", "NO"), ("nl", "NL"), ("pl", "PL")]

/-- Lines 445-450 of src/backend/services/emby_service.py: the explicit
country list taken from `origin_country`.  Python first tests the raw
value for truthiness, so an absent value, an empty list and an empty
string all yield the empty list. -/
def originCountryList (details : TmdbDetails) : List String :=
  match details.origin_country with
  | some (.arr l) => if l.isEmpty then [] else l
  | some (.str s) => if s.isEmpty then [] else [s]
  | none => []

/-- Country normalization of the bulk path
(src/backend/services/emby_service.py lines 444-462): take the explicit
`origin_country` list; when it is empty, look the (truthy)
`original_language` up in the fixed table and use the single mapped
country; when that also fails, the country list is empty. -/
def bulkCountries (details : TmdbDetails) : List String :=
  let countries := originCountryList details
  if countries.isEmpty then
    match details.original_language with
    | some lang =>
        if lang.isEmpty then []
        else
          match lang_to_country_map.lookup lang with
          | some c => [c]
          | none => []
    | none => []
  else countries

/-- Country extraction of the notification path
(src/backend/api/routers/webhook.py line 73): the `iso_3166_1` codes of
`production_countries`.  This path has no language fallback. -/
def webhookCountries (details : TmdbDetails) : List String :=
  details.production_countries.map (fun c => c.iso_3166_1)

/-- The country normalization that the specification (and claim C5)
describes, written from the spec's words for comparison with the code:
prefer the explicit country list; when it is empty, derive a single
country from the original-language code via the fixed lookup table;
when that also fails to resolve, the country set is empty. -/
def specNormalizedCountries (explicit : List String)
    (original_language : Option String) : List String :=
  if !explicit.isEmpty then explicit
  else
    match original_language with
    | some lang =>
        match lang_to_country_map.lookup lang with
        | some c => [c]
        | none => []
    | none => []

/-- Python truthiness of an optional string (absent or empty ->
falsy). -/
def pyTruthyStr : Option String → Bool
  | none => false
  | some s => !s.isEmpty

/-- Accumulating decimal parse of a character list; `none` when a
non-digit occurs (models Python `int` raising ValueError). -/
def digitsToNatAux : List Char → Nat → Option Nat
  | [], n => some n
  | c :: cs, n =>
      if c.isDigit then digitsToNatAux cs (n * 10 + (c.toNat - 48))
      else none

/-- Python `int(...)` applied to a date component: an optional leading
minus sign followed by decimal digits; anything else (including the
empty string) raises, modelled as `none`.  Written over the character
list so concrete inputs evaluate inside proofs. -/
def pyInt (s : String) : Option Int :=
  match s.data with
  | [] => none
  | '-' :: rest =>
      match rest with
      | [] => none
      | _ => (digitsToNatAux rest 0).map (fun n => -(n : Int))
  | l => (digitsToNatAux l 0).map (fun n => (n : Int))

/-- `int(s.split('-')[0])` of the webhook year extraction
(src/backend/api/routers/webhook.py lines 79 and 83), as an `Option`
(`none` models the ValueError that the handler's except-block turns
into an error response).  The first component of `s.split('-')` is the
longest dash-free prefix of `s`. -/
def parseLeadingYear (s : String) : Option Int :=
  pyInt (String.mk (s.data.takeWhile (fun c => c != '-')))

/-- The `'movie' if item_type == 'Movie' else 'tv' if item_type ==
'Series' else None` expression shared by webhook.py line 62 and
emby_service.py line 431. -/
def mediaTypeTmdb (item_type : String) : Option String :=
  if item_type == "Movie" then some "movie"
  else if item_type == "Series" then some "tv"
  else none

/-- The webhook year computation (webhook.py lines 75-83); an `error`
result models the uncaught ValueError of `int(...)` propagating to the
handler's except-block. -/
def webhookMediaYear (item_type : String) (details : TmdbDetails) :
    Except Unit (Option Int) :=
  if item_type == "Movie" then
    match details.release_date with
    | some rd =>
        if rd.isEmpty then Except.ok none
        else match parseLeadingYear rd with
          | some y => Except.ok (some y)
          | none => Except.error ()
    | none => Except.ok none
  else if item_type == "Series" then
    match details.first_air_date with
    | some fa =>
        if fa.isEmpty then Except.ok none
        else match parseLeadingYear fa with
          | some y => Except.ok (some y)
          | none => Except.error ()
    | none => Except.ok none
  else Except.ok none

/-- The `Item` object of a webhook notification payload; each field is
an `item.get(...)` (absent -> `none`). -/
structure WebhookItem where
  tmdbId : Option String
  itemType : Option String
  itemId : Option String
deriving DecidableEq, Repr

/-- A webhook notification payload: `payload.get('Item', {})`, where an
absent or empty Item dictionary is falsy (`none` here). -/
structure WebhookPayload where
  item : Option WebhookItem
deriving DecidableEq, Repr

/-- The WEBHOOK configuration section as read by `receive_webhook`
(src/backend/api/routers/webhook.py lines 17-19, 39, 94), with the
string flags already parsed and the write mode already defaulted. -/
structure WebhookConfig where
  enabled : Bool
  secret_token : Option String
  automation_enabled : Bool
  write_mode : String
deriving DecidableEq, Repr

/-- Externally visible actions of the notification-accept path, in the
order they are performed before the HTTP response is returned.
`enqueue` is the queue push that the specification mandates;
`tmdbFetch` is a Metadata Client call; `embyWrite` is an Item State
Writer call. -/
inductive Effect where
  | enqueue (payload : WebhookPayload)
  | tmdbFetch (tmdbId : String) (mediaType : String)
  | embyWrite (itemId : String) (tags : List String) (mode : String)
deriving DecidableEq, Repr

/-- The HTTP-level outcome of `receive_webhook`: an HTTPException
status code, or a JSON body identified by its `status` field. -/
inductive WebhookResponse where
  | httpError (code : Nat)
  | body (status : String)
deriving DecidableEq, Repr

/-- `receive_webhook` (src/backend/api/routers/webhook.py lines
11-113).  The config read, the TMDB fetch and the Emby update are
lifted to parameters; the effect list records, in order, every external
action the handler performs before its HTTP response is produced.  The
except-block of lines 109-111 (TMDB failure, year parse failure, Emby
update failure) yields the `"error"` body. -/
def receive_webhook (cfg : WebhookConfig) (rules : List Rule)
    (tmdb : String → String → Option TmdbDetails) (embyUpdateOk : Bool)
    (token : String) (payload : WebhookPayload) :
    WebhookResponse × List Effect :=
  if !cfg.enabled then (.httpError 403, [])
  else if !(pyTruthyStr cfg.secret_token) ||
      !(cfg.secret_token == some token) then (.httpError 401, [])
  else if !cfg.automation_enabled then (.body "received", [])
  else
    match payload.item with
    | none => (.body "skipped", [])
    | some item =>
      if !(pyTruthyStr item.tmdbId && pyTruthyStr item.itemType &&
          pyTruthyStr item.itemId) then (.body "skipped", [])
      else
        let tmdb_id := item.tmdbId.getD ""
        let item_type := item.itemType.getD ""
        let item_id := item.itemId.getD ""
        match mediaTypeTmdb item_type with
        | none => (.body "skipped", [])
        | some mt =>
          let fetchEff := Effect.tmdbFetch tmdb_id mt
          match tmdb tmdb_id mt with
          | none => (.body "error", [fetchEff])
          | some details =>
            let genre_ids := details.genres.map (fun g => g.id)
            let countries := webhookCountries details
            match webhookMediaYear item_type details with
            | .error _ => (.body "error", [fetchEff])
            | .ok media_year =>
              let generated_tags :=
                generate_tags rules countries genre_ids media_year mt
              if generated_tags.isEmpty then (.body "success", [fetchEff])
              else
                let writeEff :=
                  Effect.embyWrite item_id generated_tags cfg.write_mode
                if embyUpdateOk then
                  (.body "success", [fetchEff, writeEff])
                else (.body "error", [fetchEff, writeEff])

/-- Concrete webhook configuration for C1: enabled, known token,
automation on. -/
def c1Config : WebhookConfig :=
  { enabled := true, secret_token := some "tok",
    automation_enabled := true, write_mode := "merge" }

/-- Concrete valid notification item for C1. -/
def c1Item : WebhookItem :=
  { tmdbId := some "123", itemType := some "Movie",
    itemId := some "42" }

/-- Concrete valid notification payload for C1. -/
def c1Payload : WebhookPayload :=
  { item := some c1Item }

/-- Concrete TMDB details for C1: a US action movie. -/
def c1Details : TmdbDetails :=
  { genres := [⟨28⟩], production_countries := [⟨"US"⟩],
    origin_country := none, original_language := some "en",
    release_date := some "2001-07-20", first_air_date := none }

/-- Concrete TMDB oracle for C1. -/
def c1Tmdb : String → String → Option TmdbDetails := fun tid mt =>
  if tid == "123" && mt == "movie" then some c1Details else none

/-- Concrete TMDB details for the C5 counterexample: empty explicit
country list, original language "en" (which the fixed table maps to
"US"). -/
def c5Details : TmdbDetails :=
  { genres := [], production_countries := [], origin_country := none,
    original_language := some "en", release_date := none,
    first_air_date := none }

/-- A rule condition object as submitted to the rules API: the raw JSON
fields, all optional. -/
structure RuleCondInput where
  countries : Option (List String)
  genre_ids : Option (List Int)
  years : Option (List Int)
  year_range_display : Option String
deriving DecidableEq, Repr

/-- A rule object as submitted to the rules API: the raw JSON fields.
`is_negative_match` may be supplied by the caller (the rule engine and
the storage contract both use it). -/
structure RuleInput where
  name : String
  tag : String
  conditions : Option RuleCondInput
  item_type : Option String
  match_all_conditions : Option Bool
  is_negative_match : Option Bool
deriving DecidableEq, Repr

/-- The pydantic `RuleCondition` model of src/backend/api/routers/rules.py
lines 8-11: exactly countries, genre_ids and years, each defaulting to
the empty list. -/
structure ApiRuleCondition where
  countries : List String
  genre_ids : List Int
  years : List Int
deriving DecidableEq, Repr

/-- The pydantic `Rule` model of src/backend/api/routers/rules.py lines
13-18: name, tag, conditions, item_type (default "all"),
match_all_conditions (default False).  `is_negative_match` and
`year_range_display` are not declared fields. -/
structure ApiRule where
  name : String
  tag : String
  conditions : ApiRuleCondition
  item_type : String
  match_all_conditions : Bool
deriving DecidableEq, Repr

/-- Pydantic validation of one submitted rule against the `Rule` model
(`save_all_rules`, rules.py line 28, body `List[Rule]`): declared
fields are validated with their defaults; undeclared keys — including
`is_negative_match` — are ignored and dropped. -/
def validateRuleInput (r : RuleInput) : ApiRule :=
  { name := r.name, tag := r.tag,
    conditions :=
      match r.conditions with
      | some c =>
          { countries := c.countries.getD [],
            genre_ids := c.genre_ids.getD [],
            years := c.years.getD [] }
      | none => { countries := [], genre_ids := [], years := [] },
    item_type := r.item_type.getD "all",
    match_all_conditions := r.match_all_conditions.getD false }

/-- A stored rule object as written to rules.json by
`save_rules_to_file` after `model_dump` (rules.py line 32): exactly the
declared model fields.  The `year_range_display` clearing branch of
save_rules_to_file (rule_service.py lines 66-72) never fires, because
the dumped conditions cannot carry that key. -/
structure StoredRule where
  name : String
  tag : String
  conditions : ApiRuleCondition
  item_type : String
  match_all_conditions : Bool
deriving DecidableEq, Repr

/-- `save_rules_to_file` on a validated rule: the dumped JSON object. -/
def dumpRule (r : ApiRule) : StoredRule :=
  { name := r.name, tag := r.tag, conditions := r.conditions,
    item_type := r.item_type,
    match_all_conditions := r.match_all_conditions }

/-- `load_rules_from_file` followed by the defaulted reads of
`generate_tags` (rule_service.py lines 94-101): the rule as it takes
effect after loading.  The stored object has no `year_range_display`
and no `is_negative_match` key, so the loader leaves years as stored
and `rule.get("is_negative_match", False)` yields False. -/
def loadEffectiveRule (r : StoredRule) : Rule :=
  { name := r.name, tag := r.tag,
    conditions :=
      { countries := r.conditions.countries,
        genre_ids := r.conditions.genre_ids,
        years := r.conditions.years },
    item_type := r.item_type,
    match_all_conditions := r.match_all_conditions,
    is_negative_match := false }

/-- Submitting a rule to the save endpoint and loading it back: the
rule that subsequent evaluation passes actually use. -/
def saveLoadRoundTrip (r : RuleInput) : Rule :=
  loadEffectiveRule (dumpRule (validateRuleInput r))

/-- The condition object of the concrete C6 rule submission. -/
def negRuleCondInput : RuleCondInput :=
  { countries := some ["US"], genre_ids := none, years := none,
    year_range_display := none }

/-- Concrete rule submission with is_negative_match=true, the failing
input of C6. -/
def negRuleInput : RuleInput :=
  { name := "neg", tag := "NEG", conditions := some negRuleCondInput,
    item_type := some "movie", match_all_conditions := some false,
    is_negative_match := some true }

/-- The slice of an Emby item read by the bulk tagging orchestrator:
`Id`, `Name`, `Type` and `ProviderIds.Tmdb`, each an `item.get(...)`
(absent -> `none`). -/
structure EmbyItem where
  id : Option String
  name : Option String
  itemType : Option String
  tmdbId : Option String
deriving DecidableEq, Repr

/-- The bulk year computation
(src/backend/services/emby_service.py lines 464-472):
`int(release_date[:4])` when the (truthy) date has at least 4
characters; an `error` result models the ValueError of `int(...)`
propagating to the per-item except-block. -/
def bulkMediaYear (media_type_tmdb : String) (details : TmdbDetails) :
    Except Unit (Option Int) :=
  if media_type_tmdb == "movie" then
    match details.release_date with
    | some rd =>
        if rd.isEmpty || rd.data.length < 4 then Except.ok none
        else match pyInt (String.mk (rd.data.take 4)) with
          | some y => Except.ok (some y)
          | none => Except.error ()
    | none => Except.ok none
  else if media_type_tmdb == "tv" then
    match details.first_air_date with
    | some fa =>
        if fa.isEmpty || fa.data.length < 4 then Except.ok none
        else match pyInt (String.mk (fa.data.take 4)) with
          | some y => Except.ok (some y)
          | none => Except.error ()
    | none => Except.ok none
  else Except.ok none

/-- Line 474 of src/backend/services/emby_service.py: the item_type
string handed to generate_tags by the bulk path. -/
def ruleItemTypeFor (item_type : String) : String :=
  if item_type == "Movie" then "movie"
  else if item_type == "Series" then "series"
  else "all"

/-- `_process_single_item_for_tagging`
(src/backend/services/emby_service.py lines 407-489).  The TMDB fetch
and the Emby update are lifted to oracles, the rule file to a
parameter.  Returns the boolean the orchestrator counts: `false` for a
skipped item (missing keys, unsupported type), a failed TMDB fetch, a
year-parse exception, an empty generated tag set, or a failed update;
`true` only for a successful update. -/
def _process_single_item_for_tagging
    (tmdb : String → String → Option TmdbDetails)
    (update : String → List String → String → Bool)
    (rules : List Rule) (mode : String) (item : EmbyItem) : Bool :=
  if !(pyTruthyStr item.id && pyTruthyStr item.name &&
      pyTruthyStr item.itemType && pyTruthyStr item.tmdbId) then false
  else
    let item_id := item.id.getD ""
    let item_type := item.itemType.getD ""
    let tmdb_id := item.tmdbId.getD ""
    match mediaTypeTmdb item_type with
    | none => false
    | some mt =>
      match tmdb tmdb_id mt with
      | none => false
      | some details =>
        let genre_ids := details.genres.map (fun g => g.id)
        let countries := bulkCountries details
        match bulkMediaYear mt details with
        | .error _ => false
        | .ok media_year =>
          let generated_tags :=
            generate_tags rules countries genre_ids media_year
              (ruleItemTypeFor item_type)
          if generated_tags.isEmpty then false
          else update item_id generated_tags mode

/-- The grouping key of tag_all_media_items lines 365-371: the item's
(truthy) Tmdb id and type; `none` when either is missing or empty, in
which case the item never enters `grouped_items`. -/
def itemGroupKey (item : EmbyItem) : Option (String × String) :=
  match item.tmdbId, item.itemType with
  | some tid, some ty =>
      if tid.isEmpty || ty.isEmpty then none else some (tid, ty)
  | _, _ => none

/-- The flattened processing order of the grouped double loop
(tag_all_media_items lines 366-395): Tmdb ids in first-occurrence
order, within each id the types in first-occurrence order, within each
(id, type) group the items in enumeration order.  Both branches of the
inner loop process every item of the group identically.  Items without
a grouping key are skipped entirely. -/
def groupedProcessList (items : List EmbyItem) : List EmbyItem :=
  let keyed := items.filterMap
    (fun it => (itemGroupKey it).map (fun k => (k, it)))
  ((keyed.map (fun p => p.1.1)).dedup).flatMap (fun tid =>
    let ofTid := keyed.filter (fun p => p.1.1 == tid)
    ((ofTid.map (fun p => p.1.2)).dedup).flatMap (fun ty =>
      (ofTid.filter (fun p => p.1.2 == ty)).map (fun p => p.2)))

/-- The counter updates of the orchestrator loop (lines 382-395):
fold (processed, updated, failed) over the items in processing order,
classifying each by `_process_single_item_for_tagging`. -/
def bulkFold (g : EmbyItem → Bool) (acc : Nat × Nat × Nat) :
    List EmbyItem → Nat × Nat × Nat
  | [] => acc
  | it :: l =>
      if g it then bulkFold g (acc.1 + 1, acc.2.1 + 1, acc.2.2) l
      else bulkFold g (acc.1 + 1, acc.2.1, acc.2.2 + 1) l

/-- The dictionary returned by tag_all_media_items (lines 398-405,
minus the echoed mode/library_type). -/
structure BulkResult where
  status : String
  processed_count : Nat
  updated_count : Nat
  failed_count : Nat
deriving DecidableEq, Repr

/-- `tag_all_media_items` (src/backend/services/emby_service.py lines
338-405), with the enumeration of the library lifted to the `all_items`
parameter and the per-item pipeline's externals lifted to oracles.  The
function is total: this models the claims' premise that the
orchestrator itself raises no exception outside the per-item
try/except. -/
def tag_all_media_items (tmdb : String → String → Option TmdbDetails)
    (update : String → List String → String → Bool) (rules : List Rule)
    (mode : String) (all_items : List EmbyItem) : BulkResult :=
  let order := groupedProcessList all_items
  let counts := bulkFold
    (_process_single_item_for_tagging tmdb update rules mode)
    (0, 0, 0) order
  { status := "completed", processed_count := counts.1,
    updated_count := counts.2.1, failed_count := counts.2.2 }

/-- The task record after `_run_tag_all_media_task`
(src/backend/api/routers/tasks.py lines 12-26) finishes without an
orchestrator exception: the result counters with status "completed". -/
structure TaskRecord where
  status : String
  processed_count : Nat
  updated_count : Nat
  failed_count : Nat
deriving DecidableEq, Repr

/-- `_run_tag_all_media_task` on the embedded (total) orchestrator:
copies the result into the task record and marks it completed. -/
def _run_tag_all_media_task (tmdb : String → String → Option TmdbDetails)
    (update : String → List String → String → Bool) (rules : List Rule)
    (mode : String) (all_items : List EmbyItem) : TaskRecord :=
  let result := tag_all_media_items tmdb update rules mode all_items
  { status := "completed", processed_count := result.processed_count,
    updated_count := result.updated_count,
    failed_count := result.failed_count }

/-- An enumerated item with no Tmdb provider id (C7 counterexample). -/
def noTmdbItem : EmbyItem :=
  { id := some "1", name := some "NoProvider", itemType := some "Movie",
    tmdbId := none }

/-- TMDB details used by the C7 scenario: a US action movie. -/
def scenDetails : TmdbDetails :=
  { genres := [⟨28⟩], production_countries := [⟨"US"⟩],
    origin_country := some (.arr ["US"]),
    original_language := some "en",
    release_date := some "2001-07-20", first_air_date := none }

/-- The three enumerated items of the C7 scenario. -/
def scenItem1 : EmbyItem :=
  { id := some "e1", name := some "One", itemType := some "Movie",
    tmdbId := some "1" }

/-- Second scenario item; its metadata fetch will fail. -/
def scenItem2 : EmbyItem :=
  { id := some "e2", name := some "Two", itemType := some "Movie",
    tmdbId := some "2" }

/-- Third scenario item. -/
def scenItem3 : EmbyItem :=
  { id := some "e3", name := some "Three", itemType := some "Movie",
    tmdbId := some "3" }

/-- Scenario TMDB oracle: resolves every movie id except "2". -/
def scenTmdb : String → String → Option TmdbDetails := fun tid mt =>
  if tid == "2" then none
  else if mt == "movie" then some scenDetails else none

/-- Scenario Emby update oracle: every write succeeds. -/
def scenUpdate : String → List String → String → Bool :=
  fun _ _ _ => true

/-- TMDB details with no usable metadata, so that rule evaluation
produces no tags (C10 witness). -/
def c10Details : TmdbDetails :=
  { genres := [], production_countries := [], origin_country := none,
    original_language := none, release_date := none,
    first_air_date := none }

/-- The C10 witness item. -/
def c10Item : EmbyItem :=
  { id := some "9", name := some "Empty", itemType := some "Movie",
    tmdbId := some "7" }

/-- The C10 witness TMDB oracle. -/
def c10Tmdb : String → String → Option TmdbDetails := fun tid mt =>
  if tid == "7" && mt == "movie" then some c10Details else none

/-- Modelled from the spec: the Metadata Client's rate limiter state.
The `ratelimit` and `backoff` library code implementing the decorators
applied at src/backend/services/tmdb_service.py lines 10-11 is not part
of this repository's sources, so the limiter is modelled from the
spec's words (section 4.2): a single process-wide gate holding the time
of the last permitted call.  Time (and the configured float period) is
modelled as ℚ. -/
structure LimiterState where
  lastCall : Option ℚ
deriving DecidableEq

/-- Modelled from the spec: one limiter consultation at time `t`.  The
call is permitted when no call was ever permitted or at least `period`
has elapsed since the last permitted one; a permitted call takes the
single global token. -/
def limiterStep (period : ℚ) (s : LimiterState) (t : ℚ) :
    LimiterState × Bool :=
  match s.lastCall with
  | none => (⟨some t⟩, true)
  | some l => if period ≤ t - l then (⟨some t⟩, true) else (s, false)

/-- Run a sequence of attempted call instants through the limiter,
returning the instants of the permitted calls. -/
def limiterRun (period : ℚ) (s : LimiterState) : List ℚ → List ℚ
  | [] => []
  | t :: ts =>
      match limiterStep period s t with
      | (s2, true) => t :: limiterRun period s2 ts
      | (s2, false) => limiterRun period s2 ts

/-- Result of a Metadata Client fetch attempt sequence: permitted after
`attempts` tries, or the surfaced upstream error after exhausting the
retry ceiling. -/
inductive FetchResult where
  | ok (attempts : Nat)
  | upstreamError (attempts : Nat)
deriving DecidableEq, Repr

/-- Modelled from the spec: the retry loop of `on_exception(expo,
RateLimitException, max_tries=8)` applied at
src/backend/services/tmdb_service.py line 10 — retry a rate-limited
call, waiting `d` before the next try and doubling the wait each time,
until a try is permitted or the try budget `fuel` is exhausted, after
which the error surfaces (spec: UpstreamError). -/
def backoffRetry (period : ℚ) (s : LimiterState) (t d : ℚ) :
    Nat → Nat → FetchResult
  | 0, attempts => .upstreamError attempts
  | fuel + 1, attempts =>
      match limiterStep period s t with
      | (_, true) => .ok (attempts + 1)
      | (s2, false) =>
          backoffRetry period s2 (t + d) (d * 2) fuel (attempts + 1)

/-- The module-level gate of src/backend/services/tmdb_service.py
(lines 8-11 versus lines 41-43): a positive configured period installs
the limited, retrying fetch with its max_tries=8 ceiling; a period of
zero installs the plain fetch, which consults no limiter and always
proceeds on its first attempt. -/
def get_tmdb_details_model (period : ℚ) (s : LimiterState) (t : ℚ) :
    FetchResult :=
  if 0 < period then backoffRetry period s t 1 8 0
  else .ok 1

/-! ## Theorems -/

/-- A rule with all three condition sets empty never fires when its
negate flag is off, and also (via the explicit skip) when its target
item_type is "all". -/
theorem ruleOverallMatch_all_empty (countries : List String)
    (genre_ids : List Int) (media_year : Option Int) (item_type : String)
    (r : Rule) (hc : r.conditions.countries = [])
    (hg : r.conditions.genre_ids = []) (hy : r.conditions.years = [])
    (h : r.is_negative_match = false ∨ r.item_type = "all") :
    ruleOverallMatch countries genre_ids media_year item_type r = false := by
  rcases h with hneg | hall
  · by_cases htype : r.item_type = "all"
    · simp [ruleOverallMatch, hc, hg, hy, htype]
    · simp [ruleOverallMatch, hc, hg, hy, htype, hneg]
  · simp [ruleOverallMatch, hc, hg, hy, hall]

/-- Membership in `sortDedup l` is membership in `l`. -/
theorem mem_sortDedup {t : String} {l : List String} :
    t ∈ sortDedup l ↔ t ∈ l :=
  (List.perm_insertionSort _ _).mem_iff.trans (List.mem_dedup)

/-- `sortDedup l` is sorted ascending. -/
theorem sortDedup_sorted (l : List String) :
    List.Sorted (· ≤ ·) (sortDedup l) :=
  List.sorted_insertionSort _ _

/-- `sortDedup l` has no duplicates. -/
theorem sortDedup_nodup (l : List String) : (sortDedup l).Nodup :=
  ((List.perm_insertionSort _ _).nodup_iff).mpr (List.nodup_dedup l)

/-- `sortDedup l` has the same elements as `l`, as a finite set. -/
theorem sortDedup_toFinset (l : List String) :
    (sortDedup l).toFinset = l.toFinset := by
  refine List.toFinset.ext fun a => ?_
  simp [mem_sortDedup]

/-- C2 counterexample: the claim says a rule whose countries, genre_ids
and years are all empty contributes no tag regardless of
is_negative_match and item_type; but the rule `negEmptyRule`
(all conditions empty, item_type "movie", is_negative_match true)
does contribute its tag on a movie item with empty metadata. -/
theorem C2_empty_rule_counterexample :
    generate_tags [negEmptyRule] [] [] none "movie" ≠ [] := by
  decide

/-- C2 (amended): a rule whose countries, genre_ids and years conditions
are all empty contributes no tag to the output of rule evaluation,
provided its is_negative_match flag is off or its target item_type is
"all": prepending such a rule leaves generate_tags unchanged. -/
theorem C2_empty_rule_inert (countries : List String) (genre_ids : List Int)
    (media_year : Option Int) (item_type : String) (r : Rule)
    (rules : List Rule) (hc : r.conditions.countries = [])
    (hg : r.conditions.genre_ids = []) (hy : r.conditions.years = [])
    (h : r.is_negative_match = false ∨ r.item_type = "all") :
    generate_tags (r :: rules) countries genre_ids media_year item_type =
      generate_tags rules countries genre_ids media_year item_type := by
  have hfalse :=
    ruleOverallMatch_all_empty countries genre_ids media_year item_type r
      hc hg hy h
  cases rules with
  | nil => simp [generate_tags, hfalse]
  | cons r2 rs => simp [generate_tags, hfalse]

/-- C2 witness: the amended theorem applied at a concrete inert rule. -/
theorem C2_empty_rule_inert_witness :
    generate_tags [inertRule] ["US"] [28] (some 2000) "movie" =
      generate_tags [] ["US"] [28] (some 2000) "movie" :=
  C2_empty_rule_inert ["US"] [28] (some 2000) "movie" inertRule []
    rfl rfl rfl (Or.inl rfl)

/-- C9: rule evaluation is order-independent: evaluating any permutation
of the rule list yields the same tag set (no priority, no
short-circuiting across rules). -/
theorem C9_order_independence (countries : List String)
    (genre_ids : List Int) (media_year : Option Int) (item_type : String)
    (rules rules2 : List Rule) (hperm : rules.Perm rules2) :
    (generate_tags rules countries genre_ids media_year item_type).toFinset
      =
    (generate_tags rules2 countries genre_ids media_year
      item_type).toFinset := by
  cases rules with
  | nil =>
    have h2 : rules2 = [] := hperm.symm.eq_nil
    subst h2; rfl
  | cons a as =>
    cases rules2 with
    | nil => exact absurd hperm.eq_nil (by simp)
    | cons b bs =>
      simp only [generate_tags, List.isEmpty_cons, Bool.false_eq_true,
        if_false]
      exact List.toFinset_eq_of_perm _ _
        (((hperm.filter _).map _).dedup)

/-- C9 witness: order independence applied to a concrete swapped pair. -/
theorem C9_order_independence_witness :
    (generate_tags [usActionRule, cnDramaRule] ["US"] [28] (some 2001)
      "movie").toFinset =
    (generate_tags [cnDramaRule, usActionRule] ["US"] [28] (some 2001)
      "movie").toFinset :=
  C9_order_independence ["US"] [28] (some 2001) "movie"
    [usActionRule, cnDramaRule] [cnDramaRule, usActionRule]
    (List.Perm.swap cnDramaRule usActionRule [])

/-- C3: if the computed final tag set equals the item's current
(original) tag set order-independently, the writer issues zero network
write calls and returns success.  The original tags quantify over tag
sets, i.e. duplicate-free lists. -/
theorem C3_noop_no_write (d : EmbyItemData) (writeOk : Bool)
    (tags_to_set : List String) (mode : String)
    (hnodup : (originalTagsOf d).Nodup)
    (hset : (finalTagsFor mode (originalTagsOf d) tags_to_set).toFinset =
      (originalTagsOf d).toFinset) :
    update_item_metadata (some d) writeOk tags_to_set mode =
      ⟨true, 0, none⟩ := by
  haveI : IsAntisymm String (· ≤ ·) := ⟨fun _ _ => le_antisymm⟩
  have hfin : ∃ l, finalTagsFor mode (originalTagsOf d) tags_to_set =
      sortDedup l := by
    unfold finalTagsFor
    by_cases h : (mode == "merge") = true
    · exact ⟨_, by rw [if_pos h]⟩
    · exact ⟨_, by rw [if_neg h]⟩
  obtain ⟨l, hl⟩ := hfin
  have hsorted1 :
      List.Sorted (· ≤ ·) (finalTagsFor mode (originalTagsOf d)
        tags_to_set) :=
    hl ▸ sortDedup_sorted l
  have hnodup1 : (finalTagsFor mode (originalTagsOf d) tags_to_set).Nodup :=
    hl ▸ sortDedup_nodup l
  have hperm2 :
      List.Perm (List.insertionSort (· ≤ ·) (originalTagsOf d))
        (originalTagsOf d) :=
    List.perm_insertionSort _ _
  have hsorted2 :
      List.Sorted (· ≤ ·) (List.insertionSort (· ≤ ·) (originalTagsOf d)) :=
    List.sorted_insertionSort _ _
  have hnodup2 : (List.insertionSort (· ≤ ·) (originalTagsOf d)).Nodup :=
    hperm2.nodup_iff.mpr hnodup
  have hfs2 :
      (List.insertionSort (· ≤ ·) (originalTagsOf d)).toFinset =
        (originalTagsOf d).toFinset :=
    List.toFinset_eq_of_perm _ _ hperm2
  have hperm :
      List.Perm (finalTagsFor mode (originalTagsOf d) tags_to_set)
        (List.insertionSort (· ≤ ·) (originalTagsOf d)) :=
    List.perm_of_nodup_nodup_toFinset_eq hnodup1 hnodup2
      (by rw [hset, hfs2])
  have heq :
      finalTagsFor mode (originalTagsOf d) tags_to_set =
        List.insertionSort (· ≤ ·) (originalTagsOf d) :=
    List.eq_of_perm_of_sorted hperm hsorted1 hsorted2
  simp only [update_item_metadata]
  rw [if_pos heq]

/-- C3 witness: a merge whose result already equals the current tags
issues no write and succeeds. -/
theorem C3_noop_no_write_witness :
    update_item_metadata (some noopItem) true ["A"] "merge" =
      ⟨true, 0, none⟩ :=
  C3_noop_no_write noopItem true ["A"] "merge" (by decide)
    (by rw [show originalTagsOf noopItem = ["A", "B"] from rfl]
        rw [show finalTagsFor "merge" ["A", "B"] ["A"] =
            sortDedup (["A", "B"] ++ ["A"]) from rfl, sortDedup_toFinset]
        decide)

/-- C4: in merge mode the final tag list contains exactly the union of
the original and requested tags (hence is a superset of both) and is the
sorted deduplication of that union; in overwrite mode it contains
exactly the requested tags and is their sorted deduplication. -/
theorem C4_merge_overwrite_final (original_tags tags_to_set : List String) :
    (∀ t, t ∈ finalTagsFor "merge" original_tags tags_to_set ↔
      t ∈ original_tags ∨ t ∈ tags_to_set) ∧
    List.Sorted (· ≤ ·) (finalTagsFor "merge" original_tags tags_to_set) ∧
    (finalTagsFor "merge" original_tags tags_to_set).Nodup ∧
    finalTagsFor "merge" original_tags tags_to_set =
      sortDedup (original_tags ++ tags_to_set) ∧
    (∀ t, t ∈ finalTagsFor "overwrite" original_tags tags_to_set ↔
      t ∈ tags_to_set) ∧
    List.Sorted (· ≤ ·)
      (finalTagsFor "overwrite" original_tags tags_to_set) ∧
    (finalTagsFor "overwrite" original_tags tags_to_set).Nodup ∧
    finalTagsFor "overwrite" original_tags tags_to_set =
      sortDedup tags_to_set := by
  have hm : finalTagsFor "merge" original_tags tags_to_set =
      sortDedup (original_tags ++ tags_to_set) := rfl
  have ho : finalTagsFor "overwrite" original_tags tags_to_set =
      sortDedup tags_to_set := rfl
  refine ⟨fun t => ?_, ?_, ?_, hm, fun t => ?_, ?_, ?_, ho⟩
  · rw [hm, mem_sortDedup, List.mem_append]
  · rw [hm]; exact sortDedup_sorted _
  · rw [hm]; exact sortDedup_nodup _
  · rw [ho, mem_sortDedup]
  · rw [ho]; exact sortDedup_sorted _
  · rw [ho]; exact sortDedup_nodup _

/-- C1: evaluated at a fully valid notification (enabled receiver,
matching token, automation on, complete Item, resolvable TMDB id), the
notification-accept handler performs the Metadata Client fetch and the
Item State Writer write synchronously, before its HTTP response is
produced, and pushes nothing onto any queue — contradicting the claimed
enqueue-and-return-immediately behavior. -/
theorem C1_sync_processing_no_enqueue :
    receive_webhook c1Config [usActionRule] c1Tmdb true "tok" c1Payload =
      (.body "success",
        [.tmdbFetch "123" "movie",
         .embyWrite "42" ["US-Action"] "merge"]) ∧
    ∀ p, Effect.enqueue p ∉
      (receive_webhook c1Config [usActionRule] c1Tmdb true "tok"
        c1Payload).2 := by
  have h : receive_webhook c1Config [usActionRule] c1Tmdb true "tok"
      c1Payload =
      (.body "success",
        [.tmdbFetch "123" "movie",
         .embyWrite "42" ["US-Action"] "merge"]) := by decide
  exact ⟨h, fun p => by rw [h]; simp⟩

/-- C5 counterexample: for TMDB details with an empty explicit country
list and original language "en", the bulk path falls back to the fixed
table and yields ["US"], but the notification path passes the empty
production-country list to rule evaluation with no language fallback —
so the claimed normalization does not hold on the notification path. -/
theorem C5_webhook_no_fallback_counterexample :
    webhookCountries c5Details ≠
      specNormalizedCountries (webhookCountries c5Details)
        c5Details.original_language ∧
    bulkCountries c5Details = ["US"] := by
  decide

/-- C5 (amended): only the bulk path performs the claimed normalization
(explicit origin-country list preferred, language-table fallback, empty
when both fail); the notification path passes exactly the
production-country codes from the catalog, with no fallback. -/
theorem C5_country_normalization_amended (details : TmdbDetails) :
    bulkCountries details =
      specNormalizedCountries (originCountryList details)
        details.original_language ∧
    webhookCountries details =
      details.production_countries.map (fun c => c.iso_3166_1) := by
  refine ⟨?_, rfl⟩
  by_cases h : (originCountryList details).isEmpty
  · simp only [bulkCountries, specNormalizedCountries, h, Bool.not_true,
      if_true, Bool.false_eq_true, if_false]
    cases hl : details.original_language with
    | none => rfl
    | some lang =>
      by_cases he : lang.isEmpty
      · have hlang : lang = "" := (String.isEmpty_iff lang).mp he
        subst hlang
        rfl
      · simp [he]
  · have h2 : (originCountryList details).isEmpty = false := by
      revert h
      cases (originCountryList details).isEmpty <;> simp
    simp [bulkCountries, specNormalizedCountries, h2]

/-- C6: the save interface silently drops is_negative_match.  A rule
submitted with is_negative_match=true round-trips through
save-then-load into a rule whose effective is_negative_match is false
— and which therefore fires as a positive rule on a US movie that the
submitted negative rule was meant to exclude. -/
theorem C6_negative_match_dropped :
    negRuleInput.is_negative_match = some true ∧
    (saveLoadRoundTrip negRuleInput).is_negative_match = false ∧
    generate_tags [saveLoadRoundTrip negRuleInput] ["US"] [] none
      "movie" = ["NEG"] := by
  decide

/-- The processed counter of the orchestrator fold grows by exactly one
per item. -/
theorem bulkFold_processed (g : EmbyItem → Bool) (l : List EmbyItem) :
    ∀ p u f : Nat, (bulkFold g (p, u, f) l).1 = p + l.length := by
  induction l with
  | nil => intro p u f; rfl
  | cons it l ih =>
    intro p u f
    by_cases h : g it = true <;> simp [bulkFold, h, ih] <;> omega

/-- The updated and failed counters of the orchestrator fold together
grow by exactly one per item. -/
theorem bulkFold_split (g : EmbyItem → Bool) (l : List EmbyItem) :
    ∀ p u f : Nat,
      (bulkFold g (p, u, f) l).2.1 + (bulkFold g (p, u, f) l).2.2 =
        u + f + l.length := by
  induction l with
  | nil => intro p u f; rfl
  | cons it l ih =>
    intro p u f
    by_cases h : g it = true <;> simp [bulkFold, h, ih] <;> omega

/-- C7 counterexample: a bulk run over a single enumerated item that
lacks a Tmdb provider id ends with processed_count 0, not 1 — the item
is silently excluded from grouping and never counted, so "every
enumerated item is counted exactly once" fails. -/
theorem C7_uncounted_item_counterexample :
    (_run_tag_all_media_task scenTmdb scenUpdate [usActionRule] "merge"
        [noTmdbItem]).processed_count ≠ [noTmdbItem].length := by
  decide

/-- C7 (amended): every bulk run ends with status "completed", counts
every grouped item (those carrying a truthy provider id and type)
exactly once so that processed = updated + failed, and a single item's
failure does not abort the rest; concretely, the run over 3 items where
item 2's metadata fetch fails ends completed with processed=3,
updated=2, failed=1. -/
theorem C7_bulk_counters_amended :
    (∀ (tmdb : String → String → Option TmdbDetails)
      (update : String → List String → String → Bool)
      (rules : List Rule) (mode : String) (items : List EmbyItem),
      (_run_tag_all_media_task tmdb update rules mode items).status =
        "completed" ∧
      (_run_tag_all_media_task tmdb update rules mode
          items).processed_count =
        (_run_tag_all_media_task tmdb update rules mode
          items).updated_count +
        (_run_tag_all_media_task tmdb update rules mode
          items).failed_count ∧
      (_run_tag_all_media_task tmdb update rules mode
          items).processed_count = (groupedProcessList items).length) ∧
    _run_tag_all_media_task scenTmdb scenUpdate [usActionRule] "merge"
      [scenItem1, scenItem2, scenItem3] = ⟨"completed", 3, 2, 1⟩ := by
  constructor
  · intro tmdb update rules mode items
    refine ⟨rfl, ?_, ?_⟩
    · simp only [_run_tag_all_media_task, tag_all_media_items]
      have h1 := bulkFold_processed
        (_process_single_item_for_tagging tmdb update rules mode)
        (groupedProcessList items) 0 0 0
      have h2 := bulkFold_split
        (_process_single_item_for_tagging tmdb update rules mode)
        (groupedProcessList items) 0 0 0
      omega
    · simp only [_run_tag_all_media_task, tag_all_media_items]
      have h1 := bulkFold_processed
        (_process_single_item_for_tagging tmdb update rules mode)
        (groupedProcessList items) 0 0 0
      omega
  · decide

/-- C10: an item whose pipeline run reaches rule evaluation but
generates an empty tag set is reported as a failure: the per-item step
returns false, and a bulk run over that item counts it in failed_count
exactly as it would a metadata-fetch or write error. -/
theorem C10_empty_tags_counted_failed
    (tmdb : String → String → Option TmdbDetails)
    (update : String → List String → String → Bool)
    (rules : List Rule) (mode : String) (item : EmbyItem)
    (details : TmdbDetails) (mt : String) (media_year : Option Int)
    (hkeys : (pyTruthyStr item.id && pyTruthyStr item.name &&
      pyTruthyStr item.itemType && pyTruthyStr item.tmdbId) = true)
    (hmt : mediaTypeTmdb (item.itemType.getD "") = some mt)
    (hdet : tmdb (item.tmdbId.getD "") mt = some details)
    (hyr : bulkMediaYear mt details = Except.ok media_year)
    (htags : generate_tags rules (bulkCountries details)
      (details.genres.map (fun g => g.id)) media_year
      (ruleItemTypeFor (item.itemType.getD "")) = []) :
    _process_single_item_for_tagging tmdb update rules mode item = false ∧
    tag_all_media_items tmdb update rules mode [item] =
      ⟨"completed", 1, 0, 1⟩ := by
  have hproc : _process_single_item_for_tagging tmdb update rules mode
      item = false := by
    simp only [_process_single_item_for_tagging, hkeys, Bool.not_true,
      Bool.false_eq_true, if_false, hmt, hdet, hyr, htags]
    simp
  refine ⟨hproc, ?_⟩
  simp only [Bool.and_eq_true] at hkeys
  have htm : pyTruthyStr item.tmdbId = true := hkeys.2
  have hty : pyTruthyStr item.itemType = true := hkeys.1.2
  obtain ⟨tid, htid⟩ : ∃ s, item.tmdbId = some s := by
    cases h : item.tmdbId with
    | none => rw [h] at htm; simp [pyTruthyStr] at htm
    | some s => exact ⟨s, rfl⟩
  obtain ⟨ty, htyp⟩ : ∃ s, item.itemType = some s := by
    cases h : item.itemType with
    | none => rw [h] at hty; simp [pyTruthyStr] at hty
    | some s => exact ⟨s, rfl⟩
  have htidne : tid.isEmpty = false := by
    rw [htid] at htm; simpa [pyTruthyStr] using htm
  have htyne : ty.isEmpty = false := by
    rw [htyp] at hty; simpa [pyTruthyStr] using hty
  have horder : groupedProcessList [item] = [item] := by
    simp [groupedProcessList, itemGroupKey, htid, htyp, htidne, htyne]
  simp only [tag_all_media_items, horder, bulkFold, hproc,
    Bool.false_eq_true, if_false]

/-- C10 witness: a concrete item whose rule evaluation yields no tags is
counted failed. -/
theorem C10_empty_tags_counted_failed_witness :
    _process_single_item_for_tagging c10Tmdb scenUpdate [usActionRule]
        "merge" c10Item = false ∧
    tag_all_media_items c10Tmdb scenUpdate [usActionRule] "merge"
        [c10Item] = ⟨"completed", 1, 0, 1⟩ :=
  C10_empty_tags_counted_failed c10Tmdb scenUpdate [usActionRule]
    "merge" c10Item c10Details "movie" none rfl rfl rfl rfl rfl

/-- Every call the limiter permits after a permitted call at `l` lies
at least one period after `l`. -/
theorem limiterRun_lower (period : ℚ) (hp : 0 ≤ period) :
    ∀ (ts : List ℚ) (l u : ℚ),
      u ∈ limiterRun period ⟨some l⟩ ts → l + period ≤ u := by
  intro ts
  induction ts with
  | nil => intro l u hu; simp [limiterRun] at hu
  | cons t ts ih =>
    intro l u hu
    by_cases h : period ≤ t - l
    · have hrun : limiterRun period ⟨some l⟩ (t :: ts) =
          t :: limiterRun period ⟨some t⟩ ts := by
        simp [limiterRun, limiterStep, h]
      rw [hrun] at hu
      rcases List.mem_cons.mp hu with rfl | hu
      · linarith
      · have := ih t u hu; linarith
    · have hrun : limiterRun period ⟨some l⟩ (t :: ts) =
          limiterRun period ⟨some l⟩ ts := by
        simp [limiterRun, limiterStep, h]
      rw [hrun] at hu
      exact ih l u hu

/-- Successive permitted calls are at least one period apart: the
permitted instants are pairwise separated by `period`. -/
theorem limiterRun_pairwise (period : ℚ) (hp : 0 ≤ period) :
    ∀ (ts : List ℚ) (s : LimiterState),
      (limiterRun period s ts).Pairwise (fun a b => a + period ≤ b) := by
  intro ts
  induction ts with
  | nil => intro s; simp [limiterRun]
  | cons t ts ih =>
    intro s
    obtain ⟨lc⟩ := s
    cases lc with
    | none =>
      have hrun : limiterRun period ⟨none⟩ (t :: ts) =
          t :: limiterRun period ⟨some t⟩ ts := rfl
      rw [hrun]
      exact List.Pairwise.cons
        (fun u hu => limiterRun_lower period hp ts t u hu) (ih _)
    | some l =>
      by_cases h : period ≤ t - l
      · have hrun : limiterRun period ⟨some l⟩ (t :: ts) =
            t :: limiterRun period ⟨some t⟩ ts := by
          simp [limiterRun, limiterStep, h]
        rw [hrun]
        exact List.Pairwise.cons
          (fun u hu => limiterRun_lower period hp ts t u hu) (ih _)
      · have hrun : limiterRun period ⟨some l⟩ (t :: ts) =
            limiterRun period ⟨some l⟩ ts := by
          simp [limiterRun, limiterStep, h]
        rw [hrun]
        exact ih _

/-- A list whose elements are pairwise separated by `period` has at
most one element in any half-open window of length `period`. -/
theorem window_at_most_one (period : ℚ) (w : ℚ) :
    ∀ l : List ℚ, l.Pairwise (fun a b => a + period ≤ b) →
      (l.filter (fun t => decide (w ≤ t ∧ t < w + period))).length ≤ 1 := by
  intro l hl
  induction hl with
  | nil => simp
  | @cons a rest hhead htail ih =>
    by_cases ha : w ≤ a ∧ a < w + period
    · have hnone : rest.filter
          (fun t => decide (w ≤ t ∧ t < w + period)) = [] := by
        refine List.filter_eq_nil_iff.mpr fun b hb => ?_
        have hge := hhead b hb
        simp only [decide_eq_true_eq]
        rintro ⟨hb1, hb2⟩
        linarith [ha.1]
      have hcons : (a :: rest).filter
          (fun t => decide (w ≤ t ∧ t < w + period)) =
          a :: rest.filter (fun t => decide (w ≤ t ∧ t < w + period)) := by
        simp [List.filter_cons, ha]
      rw [hcons, hnone]
      simp
    · simp only [List.filter_cons, decide_eq_true_eq, ha, if_false]
      exact ih

/-- The retry loop permits the call within its try budget or surfaces
the error after exactly the budget's number of attempts. -/
theorem backoffRetry_bounded (period : ℚ) :
    ∀ (fuel a : Nat) (s : LimiterState) (t d : ℚ),
      (∃ k, a < k ∧ k ≤ a + fuel ∧
        backoffRetry period s t d fuel a = .ok k) ∨
      backoffRetry period s t d fuel a = .upstreamError (a + fuel) := by
  intro fuel
  induction fuel with
  | zero => intro a s t d; right; rfl
  | succ fuel ih =>
    intro a s t d
    rcases hstep : limiterStep period s t with ⟨s2, ok⟩
    cases ok with
    | true =>
      left
      refine ⟨a + 1, by omega, by omega, ?_⟩
      rw [backoffRetry, hstep]
    | false =>
      rcases ih (a + 1) s2 (t + d) (d * 2) with ⟨k, h1, h2, h3⟩ | h
      · left
        refine ⟨k, by omega, by omega, ?_⟩
        rw [backoffRetry, hstep]
        exact h3
      · right
        have h2 : a + 1 + fuel = a + (fuel + 1) := by omega
        rw [h2] at h
        rw [backoffRetry, hstep]
        exact h

/-- C8: with a positive configured period the limiter permits at most
one call per period-length window (single global token); a denied call
is retried with doubling backoff up to the fixed ceiling of 8 attempts
and then surfaces the upstream error; and with a configured period of
zero no rate limiting is applied at all (the plain fetch proceeds on
its first attempt from any limiter state). -/
theorem C8_rate_limit_backoff (period : ℚ) (ts : List ℚ)
    (hper : 0 < period) :
    (∀ w : ℚ, ((limiterRun period ⟨none⟩ ts).filter
        (fun t => decide (w ≤ t ∧ t < w + period))).length ≤ 1) ∧
    (∀ (s : LimiterState) (t d : ℚ),
      (∃ k, 1 ≤ k ∧ k ≤ 8 ∧ backoffRetry period s t d 8 0 = .ok k) ∨
      backoffRetry period s t d 8 0 = .upstreamError 8) ∧
    (∀ (s : LimiterState) (t : ℚ),
      get_tmdb_details_model 0 s t = .ok 1) := by
  refine ⟨?_, ?_, ?_⟩
  · intro w
    exact window_at_most_one period w _
      (limiterRun_pairwise period (le_of_lt hper) ts ⟨none⟩)
  · intro s t d
    rcases backoffRetry_bounded period 8 0 s t d with ⟨k, h1, h2, h3⟩ | h
    · exact Or.inl ⟨k, by omega, by omega, h3⟩
    · exact Or.inr h
  · intro s t
    simp [get_tmdb_details_model]

/-- C8 witness: the window bound applied at period 1 and a concrete
call schedule. -/
theorem C8_rate_limit_backoff_witness :
    ((limiterRun 1 ⟨none⟩ [0, 2, 3]).filter
        (fun t => decide ((0 : ℚ) ≤ t ∧ t < 0 + 1))).length ≤ 1 :=
  (C8_rate_limit_backoff 1 [0, 2, 3] zero_lt_one).1 0

end EmbyAutoTags
